import Mathlib

/-!
Shallow embedding of the `perf_events` crate (sampling engine and counting
path) and verification of its specification claims.

Sources embedded:
- `src/sample/config.rs`: `SamplingConfig`, `SamplingRate`, `WakeupConfig`,
  `SampleRequest` and their `apply` functions onto `perf_event_attr`;
- `src/sample/ring_buffer.rs`: `RingBuffer::new`, `with_page_capacity`,
  `mmap`, `head_offset_len`, `set_tail`, and the `Read::read` implementation;
- `src/fd.rs`: the `From<Errno> for OpenError` translation table;
- `src/lib.rs`: `PidConfig::raw`, `CpuConfig::raw`, `Event::create_fd`.

Machine integers are modelled as `Nat` (or `Int` where the source is signed),
with an explicit `% 2^64` where a u64 store truncates.  Byte copying is
modelled by its length: no claim depends on the copied byte values.
-/

namespace PerfEvents

/-! ## Kernel ABI constants

Numeric values of `enum perf_event_sample_format`, `enum perf_type_id` and
`enum perf_sw_ids` as generated into `raw.rs` by bindgen from the kernel's
`perf_event.h` (each sample-format selector is a distinct bit). -/

def PERF_SAMPLE_IP : Nat := 1
def PERF_SAMPLE_TID : Nat := 2
def PERF_SAMPLE_TIME : Nat := 4
def PERF_SAMPLE_ADDR : Nat := 8
def PERF_SAMPLE_READ : Nat := 16
def PERF_SAMPLE_CALLCHAIN : Nat := 32
def PERF_SAMPLE_ID : Nat := 64
def PERF_SAMPLE_CPU : Nat := 128
def PERF_SAMPLE_PERIOD : Nat := 256
def PERF_SAMPLE_STREAM_ID : Nat := 512
def PERF_SAMPLE_RAW : Nat := 1024
def PERF_SAMPLE_BRANCH_STACK : Nat := 2048
def PERF_SAMPLE_REGS_USER : Nat := 4096
def PERF_SAMPLE_STACK_USER : Nat := 8192
def PERF_SAMPLE_WEIGHT : Nat := 16384
def PERF_SAMPLE_DATA_SRC : Nat := 32768
def PERF_SAMPLE_IDENTIFIER : Nat := 65536
def PERF_SAMPLE_TRANSACTION : Nat := 131072
def PERF_SAMPLE_REGS_INTR : Nat := 262144

def PERF_TYPE_SOFTWARE : Nat := 1

/-- `SwEvent::DummyForSampled = PERF_COUNT_SW_DUMMY` (src/count.rs). -/
def PERF_COUNT_SW_DUMMY : Nat := 9

/-! ## Attribute struct and the sampling configuration (`src/sample/config.rs`)

`perf_event_attr` restricted to the fields the sampling builder touches:
`type_`, `config`, `sample_type`, the `sample_period|sample_freq` union, the
`wakeup_events|wakeup_watermark` union, and the `freq` / `watermark` bits. -/

structure PerfEventAttr where
  type_ : Nat
  config : Nat
  sample_type : Nat
  /-- the `sample_period` / `sample_freq` union (`__bindgen_anon_1`) -/
  sample_period_or_freq : Nat
  /-- the `wakeup_events` / `wakeup_watermark` union (`__bindgen_anon_2`) -/
  wakeup_events_or_watermark : Nat
  freq : Bool
  watermark : Bool
deriving DecidableEq, Repr

/-- The zeroed attribute struct the builders start from. -/
def attrZero : PerfEventAttr :=
  { type_ := 0, config := 0, sample_type := 0, sample_period_or_freq := 0
  , wakeup_events_or_watermark := 0, freq := false, watermark := false }

/-- `enum SamplingRate` (src/sample/config.rs). -/
inductive SamplingRate where
  | period (p : Nat)
  | frequency (f : Nat)
deriving DecidableEq, Repr

/-- `SamplingRate::apply`: write the chosen union arm; `Frequency` also sets
the `freq` bit. -/
def SamplingRate.apply (r : SamplingRate) (attr : PerfEventAttr) : PerfEventAttr :=
  match r with
  | .period p => { attr with sample_period_or_freq := p }
  | .frequency f => { attr with freq := true, sample_period_or_freq := f }

/-- `enum WakeupConfig` (src/sample/config.rs). -/
inductive WakeupConfig where
  | numSamples (n : Nat)
  | watermarkBytes (b : Nat)
deriving DecidableEq, Repr

/-- `WakeupConfig::apply`: write the chosen union arm; `WatermarkBytes` also
sets the `watermark` bit. -/
def WakeupConfig.apply (w : WakeupConfig) (attr : PerfEventAttr) : PerfEventAttr :=
  match w with
  | .numSamples n => { attr with wakeup_events_or_watermark := n }
  | .watermarkBytes b => { attr with watermark := true, wakeup_events_or_watermark := b }

/-- `enum SampleRequest` (src/sample/config.rs).  The two masks carried by
`BranchStack` are ignored by `SampleRequest::apply` in the source
("TODO set up the stuff"). -/
inductive SampleRequest where
  | instructionPointer
  | address
  | read
  | callchain
  | periodReq
  | raw
  | registersUser
  | stackUser
  | weight
  | dataSource
  | transaction
  | registersIntr
  | branchStack (privMask typeMask : Nat)
deriving DecidableEq, Repr

/-- The selector code of each request variant, per the match in
`SampleRequest::apply`. -/
def SampleRequest.code : SampleRequest → Nat
  | .instructionPointer => PERF_SAMPLE_IP
  | .address => PERF_SAMPLE_ADDR
  | .read => PERF_SAMPLE_READ
  | .callchain => PERF_SAMPLE_CALLCHAIN
  | .periodReq => PERF_SAMPLE_PERIOD
  | .raw => PERF_SAMPLE_RAW
  | .registersUser => PERF_SAMPLE_REGS_USER
  | .stackUser => PERF_SAMPLE_STACK_USER
  | .weight => PERF_SAMPLE_WEIGHT
  | .dataSource => PERF_SAMPLE_DATA_SRC
  | .transaction => PERF_SAMPLE_TRANSACTION
  | .registersIntr => PERF_SAMPLE_REGS_INTR
  | .branchStack _ _ => PERF_SAMPLE_BRANCH_STACK

/-- `SampleRequest::apply` (src/sample/config.rs lines 195-218): the source
ASSIGNS `attr.sample_type = code`, it does not OR the code in. -/
def SampleRequest.apply (r : SampleRequest) (attr : PerfEventAttr) : PerfEventAttr :=
  { attr with sample_type := r.code }

/-- `struct SamplingConfig` (src/sample/config.rs), the fields its `apply`
reads.  `sample_id_all` is carried but never written to the attribute by
`SamplingConfig::apply` in the source. -/
structure SamplingConfig where
  rate : SamplingRate
  requests : List SampleRequest
  sample_id_all : Bool
  wakeup : WakeupConfig
deriving DecidableEq, Repr

/-- `SamplingConfig::apply` (src/sample/config.rs lines 43-57): set the
software/dummy type, apply rate and wakeup, then apply each request in
order. -/
def SamplingConfig.apply (c : SamplingConfig) (attr : PerfEventAttr) : PerfEventAttr :=
  let a0 := { attr with type_ := PERF_TYPE_SOFTWARE, config := PERF_COUNT_SW_DUMMY }
  let a1 := c.rate.apply a0
  let a2 := c.wakeup.apply a1
  c.requests.foldl (fun acc r => r.apply acc) a2

/-! ## Open-error translation (`src/fd.rs`) -/

/-- `enum OpenError` (src/fd.rs). -/
inductive OpenError where
  | attrWrongSize
  | capSysAdminRequired
  | invalidFdOrPid
  | pmuBusy
  | attrInvalidPointer
  | invalidEvent
  | tooManyOpenFiles
  | cpuFeatureUnsupported
  | invalidEventType
  | tooManyBreakpoints
  | userStackSampleUnsupported
  | hardwareFeatureUnsupported
  | sampleMaxStackTooLarge
  | capSysAdminRequiredOrExcludeUnsupported
  | processDoesNotExist
  | unknown (errno : Nat)
deriving DecidableEq, Repr

/-- Linux errno values (x86-64), as carried by `nix::errno::Errno`. -/
def EPERM : Nat := 1
def ENOENT : Nat := 2
def ESRCH : Nat := 3
def E2BIG : Nat := 7
def EBADF : Nat := 9
def EACCES : Nat := 13
def EFAULT : Nat := 14
def EBUSY : Nat := 16
def ENODEV : Nat := 19
def EINVAL : Nat := 22
def EMFILE : Nat := 24
def ENOSPC : Nat := 28
def ENOSYS : Nat := 38
def EOVERFLOW : Nat := 75
def EOPNOTSUPP : Nat := 95

/-- `impl From<Errno> for OpenError` (src/fd.rs lines 255-276): the match on
the errno, with the catch-all mapping to `Unknown { errno }`. -/
def openErrorFromErrno (e : Nat) : OpenError :=
  if e = E2BIG then .attrWrongSize
  else if e = EACCES then .capSysAdminRequired
  else if e = EBADF then .invalidFdOrPid
  else if e = EBUSY then .pmuBusy
  else if e = EFAULT then .attrInvalidPointer
  else if e = EINVAL then .invalidEvent
  else if e = EMFILE then .tooManyOpenFiles
  else if e = ENODEV then .cpuFeatureUnsupported
  else if e = ENOENT then .invalidEventType
  else if e = ENOSPC then .tooManyBreakpoints
  else if e = ENOSYS then .userStackSampleUnsupported
  else if e = EOPNOTSUPP then .hardwareFeatureUnsupported
  else if e = EOVERFLOW then .sampleMaxStackTooLarge
  else if e = EPERM then .capSysAdminRequiredOrExcludeUnsupported
  else if e = ESRCH then .processDoesNotExist
  else .unknown e

/-! ## The open syscall arguments (`src/lib.rs`) -/

/-- `enum PidConfig` (src/lib.rs). -/
inductive PidConfig where
  | current
  | other (p : Int)
deriving DecidableEq, Repr

/-- `PidConfig::raw` (src/lib.rs lines 107-120): the source maps `Current`
to `-1`. -/
def PidConfig.raw : PidConfig → Int
  | .current => -1
  | .other p => p

/-- `enum CpuConfig` (src/lib.rs). -/
inductive CpuConfig where
  | all
  | specific (c : Int)
deriving DecidableEq, Repr

/-- `CpuConfig::raw` (src/lib.rs lines 122-135). -/
def CpuConfig.raw : CpuConfig → Int
  | .all => -1
  | .specific c => c

/-- The argument tuple `Event::create_fd` passes to `perf_event_open`
(src/lib.rs lines 265-286): `(pid.raw(), cpu.raw(), -1, 0)`. -/
structure PerfEventOpenCall where
  pid : Int
  cpu : Int
  groupFd : Int
  flags : Int
deriving DecidableEq, Repr

/-- `Event::create_fd`'s syscall arguments as a function of the configs. -/
def createFdCall (pid : PidConfig) (cpu : CpuConfig) : PerfEventOpenCall :=
  { pid := pid.raw, cpu := cpu.raw, groupFd := -1, flags := 0 }

/-! ## Ring buffer map (`src/sample/ring_buffer.rs`) -/

/-- `size_of::<perf_event_mmap_page>()`.  Computed from the kernel struct
layout quoted in the source (ring_buffer.rs lines 27-59): the header fields
up to `time_offset` occupy 64 bytes, `__u64 __reserved[120]` pads to 1024,
and `data_head` through `aux_size` add another 64 bytes. -/
def perfEventMmapPageSize : Nat := 1088

/-- The page-boundary rounding performed by `RingBuffer::mmap`
(ring_buffer.rs lines 247-253): round `min_len` up to a multiple of the
page size. -/
def mmapLength (minLen pageSize : Nat) : Nat :=
  let remainder := minLen % pageSize
  if remainder = 0 then minLen else (minLen - remainder) + pageSize

/-- The flag/protection arguments of the one `libc::mmap` call the crate
makes (ring_buffer.rs lines 258-267). -/
structure MmapCall where
  addrIsNull : Bool
  length : Nat
  protRead : Bool
  protWrite : Bool
  mapShared : Bool
  mapPrivate : Bool
  offset : Nat
deriving DecidableEq, Repr

/-- `RingBuffer::mmap`'s call into `libc::mmap`: the source passes
`PROT_READ | PROT_WRITE` and `MAP_PRIVATE` (not `MAP_SHARED`), at
offset 0, with a NULL address hint. -/
def ringBufferMmapCall (minLen pageSize : Nat) : MmapCall :=
  { addrIsNull := true
  , length := mmapLength minLen pageSize
  , protRead := true
  , protWrite := true
  , mapShared := false
  , mapPrivate := true
  , offset := 0 }

/-- `RingBuffer::with_page_capacity` (ring_buffer.rs lines 74-93) computes
`size = (num_pages + 1) * size_of::<perf_event_mmap_page>()` and maps that
many bytes (rounded up to a page boundary by `RingBuffer::mmap`).  The
result is the `len` field of the constructed `RingBuffer`. -/
def withPageCapacityLen (numPages pageSize : Nat) : Nat :=
  mmapLength ((numPages + 1) * perfEventMmapPageSize) pageSize

/-- The page count `RingBuffer::new` passes to `with_page_capacity`
(ring_buffer.rs lines 62-68: "Creates a new buffer, 8k pages by default"). -/
def ringBufferDefaultNumPages : Nat := 8192

/-- The mapped length produced by the default constructor `RingBuffer::new`
on a host with the given page size. -/
def ringBufferNewLen (pageSize : Nat) : Nat :=
  withPageCapacityLen ringBufferDefaultNumPages pageSize

/-- The metadata-page fields the reader touches (`perf_event_mmap_page`). -/
structure RBMeta where
  data_head : Nat
  data_tail : Nat
  data_offset : Nat
  data_size : Nat
deriving DecidableEq, Repr

/-- The mapped ring: total mapped length (`RingBuffer.len`) plus the
metadata page.  Byte contents are not modelled; no claim depends on the
copied byte values, only on their count. -/
structure RingBuffer where
  len : Nat
  meta : RBMeta
deriving DecidableEq, Repr

/-- `RingBuffer::head_offset_len` (ring_buffer.rs lines 201-227): load
`data_head` and wrap it by the TOTAL mapped length (`self.len`), load
`data_offset`, `assert!(offset <= head)`, load `data_size`, then issue an
acquire fence.  `none` models the assert panicking. -/
def headOffsetLen (rb : RingBuffer) : Option (Nat × Nat × Nat) :=
  let head := rb.meta.data_head % rb.len
  let offset := rb.meta.data_offset
  if offset ≤ head then some (head, offset, rb.meta.data_size) else none

/-- `RingBuffer::set_tail` (ring_buffer.rs lines 231-237): release fence,
then store `new_tail as u64` into `data_tail`. -/
def setTail (rb : RingBuffer) (newTail : Nat) : RingBuffer :=
  { rb with meta := { rb.meta with data_tail := newTail % 2 ^ 64 } }

/-- `<RingBuffer as Read>::read` (ring_buffer.rs lines 361-375): take
`(head, offset, len)` from `head_offset_len`, clamp `len` to the caller's
buffer, copy `len` bytes starting at `offset` (split across the wrap by
`slices`), then publish `set_tail(head)`.  Returns the copied byte count
and the ring with the new tail; `none` models the assert panicking. -/
def rbRead (rb : RingBuffer) (bufLen : Nat) : Option (Nat × RingBuffer) :=
  match headOffsetLen rb with
  | none => none
  | some (head, _offset, dataLen) =>
    let n := min dataLen bufLen
    some (n, setTail rb head)

/-- The mapped byte positions handed back by `RingBuffer::slices`
(ring_buffer.rs lines 160-199) for a copy of `n` bytes starting at mapped
offset `offset`: contiguous when `offset + n` stays below the mapped end,
otherwise split with the second slice restarting at `page_size()`. -/
def slicesPositions (offset n pageSize mappedLen : Nat) : List Nat :=
  if offset + n < mappedLen then
    (List.range n).map (fun i => offset + i)
  else
    let firstLen := mappedLen - offset
    ((List.range firstLen).map (fun i => offset + i)) ++
      ((List.range (n - firstLen)).map (fun i => pageSize + i))

/-- `<RingBuffer as Read>::read` again, refined to record WHICH mapped byte
positions it copies into the caller's buffer: the copy always starts at
`data_offset` (ring_buffer.rs line 368) with length
`min data_size bufLen`; the current `data_tail` plays no part in choosing
the copied positions. -/
def rbReadDelivered (rb : RingBuffer) (bufLen pageSize : Nat) :
    Option (List Nat × RingBuffer) :=
  match headOffsetLen rb with
  | none => none
  | some (head, offset, dataLen) =>
    let n := min dataLen bufLen
    some (slicesPositions offset n pageSize rb.len, setTail rb head)

/-! ### Memory-ordering trace of one `read` call

The reader's interaction with the shared metadata page and data region,
as the sequence of loads, stores, fences and data-region reads the source
performs in program order. -/

/-- One shared-memory operation of the ring-buffer reader. -/
inductive MemEvent where
  | loadHead
  | loadOffset
  | loadSize
  | fenceAcquire
  | copyData
  | fenceRelease
  | storeTail
deriving DecidableEq, Repr

/-- The program-order event trace of one `<RingBuffer as Read>::read` call:
`head_offset_len` loads `data_head`, `data_offset` (then asserts) and
`data_size`, fences acquire; `read` copies the data-region bytes; `set_tail`
fences release and stores `data_tail`.  When the assert fails the call
panics after the first two loads and performs no copy and no store. -/
def readTrace (rb : RingBuffer) : List MemEvent :=
  if rb.meta.data_offset ≤ rb.meta.data_head % rb.len then
    [.loadHead, .loadOffset, .loadSize, .fenceAcquire, .copyData, .fenceRelease, .storeTail]
  else
    [.loadHead, .loadOffset]

/-- Every `storeTail` in a trace is immediately preceded by a release
fence. -/
def storePrecededByRelease (t : List MemEvent) : Prop :=
  ∀ i : Fin t.length, t.get i = .storeTail →
    ∃ j : Fin t.length, (j : Nat) + 1 = (i : Nat) ∧ t.get j = .fenceRelease

/-- Every `loadHead` is followed by an acquire fence that comes before any
read of the data-region bytes. -/
def acquireBetweenHeadLoadAndCopy (t : List MemEvent) : Prop :=
  ∀ i j : Fin t.length, t.get i = .loadHead → t.get j = .copyData →
    ∃ k : Fin t.length, (i : Nat) < (k : Nat) ∧ (k : Nat) < (j : Nat) ∧ t.get k = .fenceAcquire

instance (t : List MemEvent) : Decidable (storePrecededByRelease t) := by
  unfold storePrecededByRelease; infer_instance

instance (t : List MemEvent) : Decidable (acquireBetweenHeadLoadAndCopy t) := by
  unfold acquireBetweenHeadLoadAndCopy; infer_instance

/-! ## Concrete ring states used by the theorems below -/

/-- A reachable metadata state: 2 mapped pages of 4096 bytes, data region of
one page starting at offset 4096; the kernel has written past one wrap
(`data_head = 12296`, so `data_head % len = 4104`), and the previously
committed tail is 4200. -/
def c3Ring : RingBuffer :=
  { len := 8192
  , meta := { data_head := 12296, data_tail := 4200, data_offset := 4096, data_size := 4096 } }

/-- A freshly mapped ring (S1 geometry: 129 pages of 4096 bytes): the kernel
has not produced any record yet, so `data_head = 0 < data_offset`. -/
def freshRing : RingBuffer :=
  { len := 528384
  , meta := { data_head := 0, data_tail := 0, data_offset := 4096, data_size := 524288 } }

/-- A ring state on which `read` succeeds: `data_head % len = 4200`,
`data_offset = 4096`. -/
def c10Ring : RingBuffer :=
  { len := 8192
  , meta := { data_head := 4200, data_tail := 0, data_offset := 4096, data_size := 4096 } }

/-- The two-selector configuration exhibiting the `sample_type` overwrite. -/
def c1Config : SamplingConfig :=
  { rate := .period 1000
  , requests := [.instructionPointer, .address]
  , sample_id_all := true
  , wakeup := .numSamples 1 }

/-! ## Claim theorems -/

/-- C1: the claim says `sample_type` is the bitwise OR of all requested
selector codes.  The code (`SampleRequest::apply`) ASSIGNS each code instead
of OR-ing it, so with requests `[InstructionPointer, Address]` the final
`sample_type` is `PERF_SAMPLE_ADDR = 8` alone, not
`PERF_SAMPLE_IP ||| PERF_SAMPLE_ADDR = 9`: the instruction-pointer bit is
lost. -/
theorem C1_sample_type_overwritten_not_ored :
    (c1Config.apply attrZero).sample_type = PERF_SAMPLE_ADDR ∧
    (c1Config.apply attrZero).sample_type ≠ (PERF_SAMPLE_IP ||| PERF_SAMPLE_ADDR) := by
  decide

/-- C2: the claim says the ring is mapped `MAP_SHARED` read-write at
offset 0.  The code passes `PROT_READ | PROT_WRITE` at offset 0 as claimed,
but the flag argument is `MAP_PRIVATE`, not `MAP_SHARED`. -/
theorem C2_mmap_is_private_not_shared :
    (ringBufferMmapCall ((ringBufferDefaultNumPages + 1) * perfEventMmapPageSize) 4096).protRead = true ∧
    (ringBufferMmapCall ((ringBufferDefaultNumPages + 1) * perfEventMmapPageSize) 4096).protWrite = true ∧
    (ringBufferMmapCall ((ringBufferDefaultNumPages + 1) * perfEventMmapPageSize) 4096).offset = 0 ∧
    (ringBufferMmapCall ((ringBufferDefaultNumPages + 1) * perfEventMmapPageSize) 4096).mapShared = false ∧
    (ringBufferMmapCall ((ringBufferDefaultNumPages + 1) * perfEventMmapPageSize) 4096).mapPrivate = true := by
  decide

/-- C3: the claim says each step publishes
`data_tail = previous tail + sum of emitted record sizes (mod 2^64)`.
The code's `read` publishes `data_head % len` (the head wrapped by the TOTAL
mapped length) and never inspects record boundaries.  On `c3Ring` it returns
4096 bytes and publishes `data_tail = 4104`, which is smaller than the
previously committed tail 4200, so it equals no sum
`4200 + s (mod 2^64)` for any byte count `s` emitted in the step
(in particular not `4200 + 4096`). -/
theorem C3_published_tail_ignores_record_sizes :
    ((rbRead c3Ring 4096).map fun r => r.2.meta.data_tail) = some 4104 ∧
    ((rbRead c3Ring 4096).map fun r => r.1) = some 4096 ∧
    4104 = c3Ring.meta.data_head % c3Ring.len ∧
    4104 < c3Ring.meta.data_tail ∧
    4104 ≠ (c3Ring.meta.data_tail + 4096) % 2 ^ 64 := by
  decide

/-- C4: the claim says the mapping of a ring with page capacity N on page
size P has total length `(N+1)*P`.  The code sizes the request as
`(N+1) * size_of::<perf_event_mmap_page>() = (N+1)*1088` and then rounds up
to a page boundary: for N = 128, P = 4096 it maps 143360 bytes, not
`129*4096 = 528384`. -/
theorem C4_map_len_uses_struct_size_not_page_size :
    withPageCapacityLen 128 4096 = 143360 ∧
    (128 + 1) * 4096 = 528384 ∧
    withPageCapacityLen 128 4096 ≠ (128 + 1) * 4096 := by
  decide

/-- C5: in every execution of the reader, the `data_tail` store is
immediately preceded by a release fence, and the `data_head` load is
followed by an acquire fence that comes before any read of the data-region
bytes. -/
theorem C5_fence_ordering (rb : RingBuffer) :
    storePrecededByRelease (readTrace rb) ∧
    acquireBetweenHeadLoadAndCopy (readTrace rb) := by
  unfold readTrace
  split
  · exact ⟨by decide, by decide⟩
  · exact ⟨by decide, by decide⟩

/-- C6: the errno-to-`OpenError` translation matches the spec's table on all
fourteen rows (fifteen errno values), and every other errno maps to
`Unknown(errno)`. -/
theorem C6_open_error_translation :
    openErrorFromErrno E2BIG = .attrWrongSize ∧
    openErrorFromErrno EACCES = .capSysAdminRequired ∧
    openErrorFromErrno EPERM = .capSysAdminRequiredOrExcludeUnsupported ∧
    openErrorFromErrno EBADF = .invalidFdOrPid ∧
    openErrorFromErrno EBUSY = .pmuBusy ∧
    openErrorFromErrno EFAULT = .attrInvalidPointer ∧
    openErrorFromErrno EINVAL = .invalidEvent ∧
    openErrorFromErrno EMFILE = .tooManyOpenFiles ∧
    openErrorFromErrno ENODEV = .cpuFeatureUnsupported ∧
    openErrorFromErrno ENOENT = .invalidEventType ∧
    openErrorFromErrno ENOSPC = .tooManyBreakpoints ∧
    openErrorFromErrno ENOSYS = .userStackSampleUnsupported ∧
    openErrorFromErrno EOPNOTSUPP = .hardwareFeatureUnsupported ∧
    openErrorFromErrno EOVERFLOW = .sampleMaxStackTooLarge ∧
    openErrorFromErrno ESRCH = .processDoesNotExist ∧
    ∀ n : Nat,
      n ∉ [E2BIG, EACCES, EBADF, EBUSY, EFAULT, EINVAL, EMFILE, ENODEV, ENOENT,
        ENOSPC, ENOSYS, EOPNOTSUPP, EOVERFLOW, EPERM, ESRCH] →
      openErrorFromErrno n = .unknown n := by
  refine ⟨by decide, by decide, by decide, by decide, by decide, by decide, by decide,
    by decide, by decide, by decide, by decide, by decide, by decide, by decide, by decide, ?_⟩
  intro n hn
  simp only [List.mem_cons, List.not_mem_nil, or_false, not_or] at hn
  obtain ⟨h1, h2, h3, h4, h5, h6, h7, h8, h9, h10, h11, h12, h13, h14, h15⟩ := hn
  unfold openErrorFromErrno
  rw [if_neg h1, if_neg h2, if_neg h3, if_neg h4, if_neg h5, if_neg h6, if_neg h7,
    if_neg h8, if_neg h9, if_neg h10, if_neg h11, if_neg h12, if_neg h13, if_neg h14,
    if_neg h15]

/-- Witness for C6: errno 11 (EAGAIN) is in none of the table rows and maps
to `Unknown(11)`. -/
theorem C6_open_error_translation_witness :
    openErrorFromErrno 11 = OpenError.unknown 11 := by
  have h := C6_open_error_translation
  exact h.2.2.2.2.2.2.2.2.2.2.2.2.2.2.2 11 (by decide)

/-- C7 counterexample: the claim says the default constructor uses a
data-region page count of 128; `RingBuffer::new` passes 8192. -/
theorem C7_default_page_count_not_128 : ringBufferDefaultNumPages ≠ 128 := by
  decide

/-- C7 amended: the default ring-buffer constructor uses a data-region page
count N of 8192 ("8k pages by default"). -/
theorem C7_default_page_count_is_8192 : ringBufferDefaultNumPages = 8192 := rfl

/-- C8: the claim says the current-process target is passed as pid 0 (with
-1 reserved for any process).  The code's `PidConfig::raw` maps `Current`
to -1, the any-process encoding; the group fd (-1) and flags (0) do match
the claim. -/
theorem C8_current_pid_raw_is_minus_one :
    (createFdCall .current .all).pid = -1 ∧
    (createFdCall .current .all).pid ≠ 0 ∧
    (createFdCall .current .all).groupFd = -1 ∧
    (createFdCall .current .all).flags = 0 := by
  decide

/-- C9: `read` succeeds exactly when `data_offset ≤ data_head % len` (the
assert in `head_offset_len`), and on a freshly mapped ring whose head is
still below `data_offset` it panics (`none`) instead of returning an empty
read. -/
theorem C9_read_panics_unless_head_reaches_offset :
    (∀ (rb : RingBuffer) (bufLen : Nat),
      (rbRead rb bufLen).isSome ↔ rb.meta.data_offset ≤ rb.meta.data_head % rb.len) ∧
    rbRead freshRing 4096 = none := by
  constructor
  · intro rb bufLen
    by_cases h : rb.meta.data_offset ≤ rb.meta.data_head % rb.len
    · simp [rbRead, headOffsetLen, h]
    · simp [rbRead, headOffsetLen, h]
  · decide

set_option maxRecDepth 10000 in
/-- C10 counterexample: the claim's final conjunct says the bytes a
small-buffer read leaves uncopied "are never delivered by any later read".
On `c10Ring` (page size 4096) a 100-byte read delivers only mapped
positions 4096..4195 — not position 4200, which lies in the step's
uncopied remainder (past the 100 copied bytes, inside the data region) —
and publishes tail 4200; the NEXT read, on the resulting state with a
200-byte buffer, delivers position 4200 after all, because `read` always
copies from `data_offset` and ignores the tail. -/
theorem C10_uncopied_bytes_redelivered :
    ((rbReadDelivered c10Ring 100 4096).map fun r => r.1.contains 4200) = some false ∧
    (c10Ring.meta.data_offset + 100 ≤ 4200 ∧
      4200 < c10Ring.meta.data_offset + c10Ring.meta.data_size) ∧
    ((rbReadDelivered c10Ring 100 4096).map fun r => r.2) = some (setTail c10Ring 4200) ∧
    ((rbReadDelivered (setTail c10Ring 4200) 200 4096).map fun r => r.1.contains 4200)
      = some true := by
  decide

/-- C10 amended: after every successful `read`, the published `data_tail`
equals `data_head % len` (the head wrapped by the total mapped length) as
sampled at the start of the call, identically for every caller buffer
size, so a small buffer's uncopied remainder is covered by the published
tail (marked consumed for the kernel) all the same; but the positions a
read delivers are determined by `data_offset`, `data_size`, the buffer
length and the wrap alone — never by the tail — so a later read can
deliver the previously uncopied byte locations again. -/
theorem C10_tail_covers_uncopied_bytes :
    ∀ (rb : RingBuffer) (b1 b2 pageSize : Nat) (d1 d2 : List Nat) (rb1 rb2 : RingBuffer),
      rbReadDelivered rb b1 pageSize = some (d1, rb1) →
      rbReadDelivered rb b2 pageSize = some (d2, rb2) →
      rb1.meta.data_tail = rb.meta.data_head % rb.len % 2 ^ 64 ∧
      rb1.meta.data_tail = rb2.meta.data_tail ∧
      d1 = slicesPositions rb.meta.data_offset (min rb.meta.data_size b1) pageSize rb.len := by
  intro rb b1 b2 ps d1 d2 rb1 rb2 h1 h2
  by_cases h : rb.meta.data_offset ≤ rb.meta.data_head % rb.len
  · simp [rbReadDelivered, headOffsetLen, h] at h1 h2
    refine ⟨?_, ?_, h1.1.symm⟩
    · rw [← h1.2]; simp [setTail]
    · rw [← h1.2, ← h2.2]
  · simp [rbReadDelivered, headOffsetLen, h] at h1

set_option maxRecDepth 10000 in
/-- Witness for the amended C10: a 100-byte read and a 200-byte read of
`c10Ring` both publish tail 4200, and the small read's delivered positions
start at `data_offset` regardless of the committed tail. -/
theorem C10_tail_covers_uncopied_bytes_witness :
    (setTail c10Ring 4200).meta.data_tail = c10Ring.meta.data_head % c10Ring.len % 2 ^ 64 ∧
    (setTail c10Ring 4200).meta.data_tail = (setTail c10Ring 4200).meta.data_tail ∧
    slicesPositions 4096 100 4096 8192
      = slicesPositions c10Ring.meta.data_offset (min c10Ring.meta.data_size 100) 4096 c10Ring.len :=
  C10_tail_covers_uncopied_bytes c10Ring 100 200 4096
    (slicesPositions 4096 100 4096 8192) (slicesPositions 4096 200 4096 8192)
    (setTail c10Ring 4200) (setTail c10Ring 4200) (by decide) (by decide)

end PerfEvents
